import Mathlib

/-!
Verification of the firefly particle simulation and splat compositor of
taskB_Gubanova.py, and of the shader pipeline classes of gui.py.

The float expressions of the source are embedded over the rationals.  The
square roots computed by tm.length and tm.normalize are represented by
passing the length as an extra argument, constrained in each theorem by the
hypotheses 0 ≤ d and d ^ 2 = dx ^ 2 + dy ^ 2.  The time-dependent sine that
drives the pulse is represented by the pulse-factor argument pf, the value
of sin(t * PULSE_SPEED + offset) * 0.5 + 0.5.  Division by a zero norm
(tm.normalize applied to the zero vector, which yields NaN) is embedded as
none.
-/

/-- Embedding of FIREFLY_RADIUS = 0.008 from taskB_Gubanova.py. -/
def FIREFLY_RADIUS : ℚ := 1 / 125

/-- Embedding of ATTRACTION_RADIUS = 0.2 from taskB_Gubanova.py. -/
def ATTRACTION_RADIUS : ℚ := 1 / 5

/-- Embedding of ATTRACTION_STRENGTH = 0.0005 from taskB_Gubanova.py. -/
def ATTRACTION_STRENGTH : ℚ := 1 / 2000

/-- Embedding of FIREFLY_SPEED = 0.05 from taskB_Gubanova.py. -/
def FIREFLY_SPEED : ℚ := 1 / 20

/-- Embedding of TRAIL_FADE_SPEED = 0.95 from taskB_Gubanova.py. -/
def TRAIL_FADE_SPEED : ℚ := 19 / 20

/-- Embedding of MIN_PULSE_FACTOR = 0.5 from taskB_Gubanova.py. -/
def MIN_PULSE_FACTOR : ℚ := 1 / 2

/-- Embedding of MAX_PULSE_FACTOR = 1.5 from taskB_Gubanova.py. -/
def MAX_PULSE_FACTOR : ℚ := 3 / 2

/-- Embedding of res_x = 1280 from taskB_Gubanova.py. -/
def resX : ℚ := 1280

/-- Embedding of res_y = int(res_x / aspect) = 1280 from taskB_Gubanova.py. -/
def resY : ℚ := 1280

/-- Computable maximum of two rationals, used to embed tm.clamp. -/
def qmax (a b : ℚ) : ℚ := if a ≤ b then b else a

/-- Computable minimum of two rationals, used to embed tm.clamp and tm.min. -/
def qmin (a b : ℚ) : ℚ := if a ≤ b then a else b

/-- Embedding of tm.clamp(v, lo, hi) = min(max(v, lo), hi). -/
def clampQ (v lo hi : ℚ) : ℚ := qmin (qmax v lo) hi

/-- Embedding of the smoothstep helper of taskB_Gubanova.py:
t = clamp((x - e0) / (e1 - e0), 0, 1); t * t * (3 - 2 * t). -/
def smoothstep (e0 e1 x : ℚ) : ℚ :=
  clampQ ((x - e0) / (e1 - e0)) 0 1 * clampQ ((x - e0) / (e1 - e0)) 0 1 *
    (3 - 2 * clampQ ((x - e0) / (e1 - e0)) 0 1)

/-- Embedding of the smootherstep helper of taskB_Gubanova.py:
t = clamp((x - e0) / (e1 - e0), 0, 1); t * t * t * (t * (t * 6 - 15) + 10). -/
def smootherstep (e0 e1 x : ℚ) : ℚ :=
  clampQ ((x - e0) / (e1 - e0)) 0 1 * clampQ ((x - e0) / (e1 - e0)) 0 1 *
    clampQ ((x - e0) / (e1 - e0)) 0 1 *
    (clampQ ((x - e0) / (e1 - e0)) 0 1 * (clampQ ((x - e0) / (e1 - e0)) 0 1 * 6 - 15) + 10)

/-- Embedding of mix_colors specialised to scalars, as used for the pulsing
radius: c1 * (1 - alpha) + c2 * alpha. -/
def mixScalar (c1 c2 alpha : ℚ) : ℚ := c1 * (1 - alpha) + c2 * alpha

/-- Componentwise sum of RGB triples (the += accumulation on pixels). -/
def v3add (a b : ℚ × ℚ × ℚ) : ℚ × ℚ × ℚ := (a.1 + b.1, a.2.1 + b.2.1, a.2.2 + b.2.2)

/-- Scaling of an RGB triple by a scalar. -/
def v3scale (s : ℚ) (a : ℚ × ℚ × ℚ) : ℚ × ℚ × ℚ := (s * a.1, s * a.2.1, s * a.2.2)

/-- Embedding of mix_colors of taskB_Gubanova.py on RGB triples:
color1 * (1 - alpha) + color2 * alpha. -/
def mix_colors (c1 c2 : ℚ × ℚ × ℚ) (alpha : ℚ) : ℚ × ℚ × ℚ :=
  v3add (v3scale (1 - alpha) c1) (v3scale alpha c2)

/-- Embedding of the per-pair force magnitude of update_fireflies.  The
source first computes smootherstep(0, ATTRACTION_RADIUS, dist) *
ATTRACTION_STRENGTH and then, when dist < FIREFLY_RADIUS * 2, replaces it
by -ATTRACTION_STRENGTH * 2 / dist; the two assignments are equivalent to
this conditional. -/
def forceMagnitude (d : ℚ) : ℚ :=
  if d < FIREFLY_RADIUS * 2 then -ATTRACTION_STRENGTH * 2 / d
  else smootherstep 0 ATTRACTION_RADIUS d * ATTRACTION_STRENGTH

/-- Embedding of one pairwise contribution to attraction_force in
update_fireflies.  dv is dist_vec = other_pos - current_pos and d is its
length; tm.normalize(dist_vec) is dv / d.  Outside the window
dist < ATTRACTION_RADIUS and dist > 1e-5 the contribution is zero. -/
def forceContrib (dv : ℚ × ℚ) (d : ℚ) : ℚ × ℚ :=
  if d < ATTRACTION_RADIUS ∧ 1 / 100000 < d then
    (dv.1 / d * forceMagnitude d, dv.2 / d * forceMagnitude d)
  else (0, 0)

theorem clampQ_mem (v lo hi : ℚ) (h : lo ≤ hi) :
    lo ≤ clampQ v lo hi ∧ clampQ v lo hi ≤ hi := by
  unfold clampQ qmin qmax
  split_ifs <;> constructor <;> linarith

theorem smootherstep_nonneg (e0 e1 x : ℚ) : 0 ≤ smootherstep e0 e1 x := by
  unfold smootherstep
  obtain ⟨h0, h1⟩ := clampQ_mem ((x - e0) / (e1 - e0)) 0 1 (by norm_num)
  set t := clampQ ((x - e0) / (e1 - e0)) 0 1 with ht
  have hpos : 0 < t * (t * 6 - 15) + 10 := by nlinarith [sq_nonneg (t - 5 / 4)]
  nlinarith [mul_nonneg (mul_nonneg h0 h0) h0]

/-- Claim C1 (amended): the pairwise force contribution is zero when the
distance is at least the attraction radius or at most the epsilon 1e-5;
it is the quintic-eased attraction (nonnegative magnitude, directed along
dv, that is from i toward j) when 2 * FIREFLY_RADIUS ≤ dist <
ATTRACTION_RADIUS; and it is the repulsion of (negative) magnitude
-2 * ATTRACTION_STRENGTH / dist, which replaces the attraction term, when
1e-5 < dist < 2 * FIREFLY_RADIUS.  The amendment relative to the claim is
only at dist = 1e-5 exactly, where the source condition dist > 1e-5 makes
the contribution zero rather than a repulsion. -/
theorem C1_force_cases (dv : ℚ × ℚ) (d : ℚ) (h0 : 0 ≤ d)
    (hd : d ^ 2 = dv.1 ^ 2 + dv.2 ^ 2) :
    ((ATTRACTION_RADIUS ≤ d ∨ d ≤ 1 / 100000) → forceContrib dv d = (0, 0)) ∧
    (FIREFLY_RADIUS * 2 ≤ d → d < ATTRACTION_RADIUS →
      forceContrib dv d =
        (dv.1 / d * (smootherstep 0 ATTRACTION_RADIUS d * ATTRACTION_STRENGTH),
         dv.2 / d * (smootherstep 0 ATTRACTION_RADIUS d * ATTRACTION_STRENGTH)) ∧
      0 ≤ smootherstep 0 ATTRACTION_RADIUS d * ATTRACTION_STRENGTH) ∧
    (1 / 100000 < d → d < FIREFLY_RADIUS * 2 →
      forceContrib dv d =
        (dv.1 / d * (-ATTRACTION_STRENGTH * 2 / d),
         dv.2 / d * (-ATTRACTION_STRENGTH * 2 / d)) ∧
      -ATTRACTION_STRENGTH * 2 / d < 0) := by
  refine ⟨?_, ?_, ?_⟩
  · intro h
    unfold forceContrib
    rw [if_neg]
    rintro ⟨h1, h2⟩
    rcases h with h | h
    · exact absurd h1 (not_lt.mpr h)
    · exact absurd h2 (not_lt.mpr h)
  · intro h1 h2
    have hε : (1 / 100000 : ℚ) < d := by
      have : (1 / 100000 : ℚ) < FIREFLY_RADIUS * 2 := by norm_num [FIREFLY_RADIUS]
      linarith
    constructor
    · unfold forceContrib forceMagnitude
      rw [if_pos ⟨h2, hε⟩, if_neg (not_lt.mpr h1)]
    · exact mul_nonneg (smootherstep_nonneg 0 ATTRACTION_RADIUS d)
        (by norm_num [ATTRACTION_STRENGTH])
  · intro h1 h2
    constructor
    · unfold forceContrib forceMagnitude
      rw [if_pos ⟨lt_trans h2 (by norm_num [FIREFLY_RADIUS, ATTRACTION_RADIUS]), h1⟩,
        if_pos h2]
    · apply div_neg_of_neg_of_pos
      · norm_num [ATTRACTION_STRENGTH]
      · linarith

/-- Claim C1 counterexample: two particles at distance exactly 1e-5 (for
example i at the origin and j at (1e-5, 0)).  The distance is below twice
the entity radius, is not at least the attraction radius, and is not below
the epsilon, so the claim predicts a nonzero repulsion, but the source
condition dist > 1e-5 is strict and the contribution is exactly zero. -/
theorem C1_counterexample :
    (0 ≤ (1 / 100000 : ℚ) ∧
      ((1 / 100000 : ℚ)) ^ 2 = (1 / 100000 : ℚ) ^ 2 + (0 : ℚ) ^ 2) ∧
    (1 / 100000 : ℚ) < FIREFLY_RADIUS * 2 ∧
    ¬ ATTRACTION_RADIUS ≤ (1 / 100000 : ℚ) ∧
    ¬ ((1 / 100000 : ℚ) < 1 / 100000) ∧
    forceContrib (1 / 100000, 0) (1 / 100000) = (0, 0) ∧
    (1 / 100000 : ℚ) / (1 / 100000) * (-ATTRACTION_STRENGTH * 2 / (1 / 100000)) ≠ 0 := by
  refine ⟨⟨by norm_num, by norm_num⟩, by norm_num [FIREFLY_RADIUS],
    by norm_num [ATTRACTION_RADIUS], by norm_num, ?_, by norm_num [ATTRACTION_STRENGTH]⟩
  norm_num [forceContrib]

/-- Claim C1 witness: the amended case analysis evaluated at the concrete
pair dv = (1/10, 0), d = 1/10, which lies in the attraction band. -/
theorem C1_witness :
    (0 ≤ (1 / 10 : ℚ) ∧ ((1 / 10 : ℚ)) ^ 2 = (1 / 10 : ℚ) ^ 2 + (0 : ℚ) ^ 2 ∧
      FIREFLY_RADIUS * 2 ≤ (1 / 10 : ℚ) ∧ (1 / 10 : ℚ) < ATTRACTION_RADIUS) ∧
    forceContrib (1 / 10, 0) (1 / 10) =
      ((1 / 10 : ℚ) / (1 / 10) * (smootherstep 0 ATTRACTION_RADIUS (1 / 10) * ATTRACTION_STRENGTH),
       (0 : ℚ) / (1 / 10) * (smootherstep 0 ATTRACTION_RADIUS (1 / 10) * ATTRACTION_STRENGTH)) ∧
    0 ≤ smootherstep 0 ATTRACTION_RADIUS (1 / 10) * ATTRACTION_STRENGTH :=
  ⟨⟨by norm_num, by norm_num, by norm_num [FIREFLY_RADIUS], by norm_num [ATTRACTION_RADIUS]⟩,
   ((C1_force_cases (1 / 10, 0) (1 / 10) (by norm_num) (by norm_num)).2.1
      (by norm_num [FIREFLY_RADIUS]) (by norm_num [ATTRACTION_RADIUS])).1,
   ((C1_force_cases (1 / 10, 0) (1 / 10) (by norm_num) (by norm_num)).2.1
      (by norm_num [FIREFLY_RADIUS]) (by norm_num [ATTRACTION_RADIUS])).2⟩

/-- Embedding of the velocity accumulation of update_fireflies:
firefly_vel[i] += attraction_force; firefly_vel[i] += random_dir_change. -/
def velAfterForces (vel force rnd : ℚ × ℚ) : ℚ × ℚ :=
  (vel.1 + force.1 + rnd.1, vel.2 + force.2 + rnd.2)

/-- Embedding of firefly_vel[i] = tm.normalize(v) * FIREFLY_SPEED, where n
is the length of v (constrained in the theorems by n ^ 2 = v.1 ^ 2 +
v.2 ^ 2).  tm.normalize divides by the length; a zero length divides zero
by zero, which in f32 produces NaN, embedded here as none. -/
def renormVel (v : ℚ × ℚ) (n : ℚ) : Option (ℚ × ℚ) :=
  if n = 0 then none
  else some (v.1 / n * FIREFLY_SPEED, v.2 / n * FIREFLY_SPEED)

/-- Embedding of the per-axis boundary handling of update_fireflies: if the
integrated coordinate is below 0 the position is set to 0 and the velocity
component negated; else if it is above 1 the position is set to 1 and the
velocity component negated; otherwise both are unchanged. -/
def reflectAxis (p v : ℚ) : ℚ × ℚ :=
  if p < 0 then (0, -v) else if 1 < p then (1, -v) else (p, v)

/-- Position integration firefly_pos[i] += firefly_vel[i] followed by the
boundary handling on each axis, returning (position, velocity). -/
def applyMove (pos v3 : ℚ × ℚ) : (ℚ × ℚ) × (ℚ × ℚ) :=
  (((reflectAxis (pos.1 + v3.1) v3.1).1, (reflectAxis (pos.2 + v3.2) v3.2).1),
   ((reflectAxis (pos.1 + v3.1) v3.1).2, (reflectAxis (pos.2 + v3.2) v3.2).2))

/-- Embedding of one iteration of the outer loop of update_fireflies for
particle i, given the accumulated pairwise force, the random perturbation,
and the length n of the perturbed velocity. -/
def stepParticle (pos vel force rnd : ℚ × ℚ) (n : ℚ) : Option ((ℚ × ℚ) × (ℚ × ℚ)) :=
  (renormVel (velAfterForces vel force rnd) n).map (applyMove pos)

theorem reflectAxis_sq (p v : ℚ) : ((reflectAxis p v).2) ^ 2 = v ^ 2 := by
  unfold reflectAxis
  split_ifs <;> dsimp only <;> ring

theorem reflectAxis_bounds (p v : ℚ) :
    0 ≤ (reflectAxis p v).1 ∧ (reflectAxis p v).1 ≤ 1 := by
  unfold reflectAxis
  split_ifs with h1 h2 <;> dsimp only
  · exact ⟨le_refl 0, by norm_num⟩
  · exact ⟨by norm_num, le_refl 1⟩
  · exact ⟨le_of_not_lt h1, le_of_not_lt h2⟩

theorem reflectAxis_low (p v : ℚ) (h : p < 0) : reflectAxis p v = (0, -v) := by
  unfold reflectAxis
  rw [if_pos h]

theorem reflectAxis_high (p v : ℚ) (h : 1 < p) : reflectAxis p v = (1, -v) := by
  unfold reflectAxis
  rw [if_neg (by linarith), if_pos h]

theorem reflectAxis_mid (p v : ℚ) (h0 : 0 ≤ p) (h1 : p ≤ 1) :
    reflectAxis p v = (p, v) := by
  unfold reflectAxis
  rw [if_neg (not_lt.mpr h0), if_neg (not_lt.mpr h1)]

/-- Claim C2: for a particle whose perturbed velocity has positive length n,
the simulation step succeeds and the resulting velocity has squared length
exactly FIREFLY_SPEED ^ 2: the step renormalizes the velocity to
FIREFLY_SPEED after the force and perturbation are added, and the boundary
handling only flips the sign of a component, preserving the magnitude. -/
theorem C2_speed_invariant (pos vel force rnd : ℚ × ℚ) (n : ℚ) (hn : 0 < n)
    (hnorm : n ^ 2 = (velAfterForces vel force rnd).1 ^ 2 +
      (velAfterForces vel force rnd).2 ^ 2) :
    ∃ p v, stepParticle pos vel force rnd n = some (p, v) ∧
      v.1 ^ 2 + v.2 ^ 2 = FIREFLY_SPEED ^ 2 := by
  have hne : n ≠ 0 := ne_of_gt hn
  set a := (velAfterForces vel force rnd).1 with ha
  set b := (velAfterForces vel force rnd).2 with hb
  refine ⟨((reflectAxis (pos.1 + a / n * FIREFLY_SPEED) (a / n * FIREFLY_SPEED)).1,
           (reflectAxis (pos.2 + b / n * FIREFLY_SPEED) (b / n * FIREFLY_SPEED)).1),
          ((reflectAxis (pos.1 + a / n * FIREFLY_SPEED) (a / n * FIREFLY_SPEED)).2,
           (reflectAxis (pos.2 + b / n * FIREFLY_SPEED) (b / n * FIREFLY_SPEED)).2),
          ?_, ?_⟩
  · unfold stepParticle renormVel applyMove
    rw [if_neg hne]
    rfl
  · dsimp only
    rw [reflectAxis_sq, reflectAxis_sq]
    field_simp
    linear_combination (-(FIREFLY_SPEED ^ 2)) * hnorm

/-- Claim C3: after a successful simulation step both position components
lie in [0, 1], and the boundary handling either clamps an exiting
coordinate to the violated boundary while negating that velocity component,
or leaves the axis unchanged when the integrated coordinate stays in
[0, 1]. -/
theorem C3_position_bounds (pos vel force rnd : ℚ × ℚ) (n : ℚ) (p v : ℚ × ℚ)
    (h : stepParticle pos vel force rnd n = some (p, v)) :
    (0 ≤ p.1 ∧ p.1 ≤ 1 ∧ 0 ≤ p.2 ∧ p.2 ≤ 1) ∧
    (∀ w, renormVel (velAfterForces vel force rnd) n = some w →
      ((pos.1 + w.1 < 0 → p.1 = 0 ∧ v.1 = -w.1) ∧
       (1 < pos.1 + w.1 → p.1 = 1 ∧ v.1 = -w.1) ∧
       (0 ≤ pos.1 + w.1 → pos.1 + w.1 ≤ 1 → p.1 = pos.1 + w.1 ∧ v.1 = w.1) ∧
       (pos.2 + w.2 < 0 → p.2 = 0 ∧ v.2 = -w.2) ∧
       (1 < pos.2 + w.2 → p.2 = 1 ∧ v.2 = -w.2) ∧
       (0 ≤ pos.2 + w.2 → pos.2 + w.2 ≤ 1 → p.2 = pos.2 + w.2 ∧ v.2 = w.2))) := by
  unfold stepParticle at h
  cases hr : renormVel (velAfterForces vel force rnd) n with
  | none => rw [hr] at h; simp at h
  | some w0 =>
    rw [hr] at h
    simp only [Option.map_some'] at h
    have h2 := Option.some.inj h
    have hp1 : (reflectAxis (pos.1 + w0.1) w0.1).1 = p.1 :=
      congrArg (fun z => z.1.1) h2
    have hp2 : (reflectAxis (pos.2 + w0.2) w0.2).1 = p.2 :=
      congrArg (fun z => z.1.2) h2
    have hv1 : (reflectAxis (pos.1 + w0.1) w0.1).2 = v.1 :=
      congrArg (fun z => z.2.1) h2
    have hv2 : (reflectAxis (pos.2 + w0.2) w0.2).2 = v.2 :=
      congrArg (fun z => z.2.2) h2
    constructor
    · refine ⟨?_, ?_, ?_, ?_⟩
      · rw [← hp1]; exact (reflectAxis_bounds _ _).1
      · rw [← hp1]; exact (reflectAxis_bounds _ _).2
      · rw [← hp2]; exact (reflectAxis_bounds _ _).1
      · rw [← hp2]; exact (reflectAxis_bounds _ _).2
    · intro w hw
      have hww : w0 = w := Option.some.inj hw
      subst hww
      refine ⟨?_, ?_, ?_, ?_, ?_, ?_⟩
      · intro hlt
        rw [reflectAxis_low _ _ hlt] at hp1 hv1
        exact ⟨hp1.symm, hv1.symm⟩
      · intro hlt
        rw [reflectAxis_high _ _ hlt] at hp1 hv1
        exact ⟨hp1.symm, hv1.symm⟩
      · intro hge hle
        rw [reflectAxis_mid _ _ hge hle] at hp1 hv1
        exact ⟨hp1.symm, hv1.symm⟩
      · intro hlt
        rw [reflectAxis_low _ _ hlt] at hp2 hv2
        exact ⟨hp2.symm, hv2.symm⟩
      · intro hlt
        rw [reflectAxis_high _ _ hlt] at hp2 hv2
        exact ⟨hp2.symm, hv2.symm⟩
      · intro hge hle
        rw [reflectAxis_mid _ _ hge hle] at hp2 hv2
        exact ⟨hp2.symm, hv2.symm⟩

/-- Claim C2 witness: the speed invariant at the concrete inputs
vel = (3/100, 0), force = (0, 4/100), rnd = (0, 0), whose sum has length
n = 1/20. -/
theorem C2_witness :
    ((0 : ℚ) < 1 / 20 ∧ ((1 / 20 : ℚ)) ^ 2 =
      (velAfterForces (3 / 100, 0) (0, 4 / 100) (0, 0)).1 ^ 2 +
      (velAfterForces (3 / 100, 0) (0, 4 / 100) (0, 0)).2 ^ 2) ∧
    (∃ p v, stepParticle (1 / 2, 1 / 2) (3 / 100, 0) (0, 4 / 100) (0, 0) (1 / 20) =
      some (p, v) ∧ v.1 ^ 2 + v.2 ^ 2 = FIREFLY_SPEED ^ 2) :=
  ⟨⟨by norm_num, by norm_num [velAfterForces]⟩,
   C2_speed_invariant (1 / 2, 1 / 2) (3 / 100, 0) (0, 4 / 100) (0, 0) (1 / 20)
     (by norm_num) (by norm_num [velAfterForces])⟩

/-- Claim C3 witness: the step at position (1/2, 1/2) with velocity
(1/20, 0), no force and no perturbation moves to (11/20, 1/2) and stays in
bounds. -/
theorem C3_witness :
    stepParticle (1 / 2, 1 / 2) (1 / 20, 0) (0, 0) (0, 0) (1 / 20) =
      some ((11 / 20, 1 / 2), (1 / 20, 0)) ∧
    (0 ≤ (11 / 20 : ℚ) ∧ (11 / 20 : ℚ) ≤ 1 ∧ 0 ≤ (1 / 2 : ℚ) ∧ (1 / 2 : ℚ) ≤ 1) :=
  ⟨by norm_num [stepParticle, renormVel, velAfterForces, applyMove, reflectAxis,
      FIREFLY_SPEED],
   (C3_position_bounds (1 / 2, 1 / 2) (1 / 20, 0) (0, 0) (0, 0) (1 / 20)
      (11 / 20, 1 / 2) (1 / 20, 0)
      (by norm_num [stepParticle, renormVel, velAfterForces, applyMove, reflectAxis,
        FIREFLY_SPEED])).1⟩

/-- Claim C5 (code bug): when the previous velocity plus accumulated force
plus random perturbation is the zero vector, tm.normalize divides by a
zero length; there is no epsilon guard in the source, so the step produces
NaN, embedded as none.  The concrete failing input is velocity (0.05, 0),
force (-0.045, 0), perturbation (-0.005, 0). -/
theorem C5_zero_vector_bug :
    velAfterForces (1 / 20, 0) (-9 / 200, 0) (-1 / 200, 0) = (0, 0) ∧
    stepParticle (1 / 2, 1 / 2) (1 / 20, 0) (-9 / 200, 0) (-1 / 200, 0) 0 = none := by
  constructor
  · norm_num [velAfterForces]
  · norm_num [stepParticle, renormVel]

/-- Embedding of the Python int() conversion on a rational value:
truncation toward zero. -/
def ratTrunc (x : ℚ) : ℤ := if 0 ≤ x then ⌊x⌋ else ⌈x⌉

/-- Embedding of MAX_FIREFLY_PIXEL_RADIUS =
int(FIREFLY_RADIUS * MAX_PULSE_FACTOR * res_x * 1.5) + 2 (= 25). -/
def MAX_FIREFLY_PIXEL_RADIUS : ℤ :=
  ratTrunc (FIREFLY_RADIUS * MAX_PULSE_FACTOR * resX * (3 / 2)) + 2

/-- Static per-particle state read by the render kernel: position in
[0,1] x [0,1] and base RGB color. -/
structure Firefly where
  pos : ℚ × ℚ
  color : ℚ × ℚ × ℚ

/-- Embedding of pixel_x = int(ff_pos.x * res_x). -/
def pixelX (ff : Firefly) : ℤ := ratTrunc (ff.pos.1 * resX)

/-- Embedding of pixel_y = int(ff_pos.y * res_y). -/
def pixelY (ff : Firefly) : ℤ := ratTrunc (ff.pos.2 * resY)

/-- The pixel c is visited by the bounding-box offset loops of the render
kernel for this firefly: both offsets range over
[-MAX_FIREFLY_PIXEL_RADIUS, MAX_FIREFLY_PIXEL_RADIUS]. -/
def inBoundingBox (ff : Firefly) (c : ℤ × ℤ) : Prop :=
  pixelX ff - MAX_FIREFLY_PIXEL_RADIUS ≤ c.1 ∧
  c.1 ≤ pixelX ff + MAX_FIREFLY_PIXEL_RADIUS ∧
  pixelY ff - MAX_FIREFLY_PIXEL_RADIUS ≤ c.2 ∧
  c.2 ≤ pixelY ff + MAX_FIREFLY_PIXEL_RADIUS

instance (ff : Firefly) (c : ℤ × ℤ) : Decidable (inBoundingBox ff c) := by
  unfold inBoundingBox
  infer_instance

/-- Embedding of the range check 0 <= current_pixel_x < res_x and
0 <= current_pixel_y < res_y. -/
def inScreen (c : ℤ × ℤ) : Prop :=
  0 ≤ c.1 ∧ c.1 < 1280 ∧ 0 ≤ c.2 ∧ c.2 < 1280

instance (c : ℤ × ℤ) : Decidable (inScreen c) := by
  unfold inScreen
  infer_instance

/-- Embedding of current_radius = FIREFLY_RADIUS *
mix_colors(MIN_PULSE_FACTOR, MAX_PULSE_FACTOR, pulse_factor), with pf the
pulse factor sin(t * PULSE_SPEED + offset) * 0.5 + 0.5. -/
def currentRadius (pf : ℚ) : ℚ :=
  FIREFLY_RADIUS * mixScalar MIN_PULSE_FACTOR MAX_PULSE_FACTOR pf

/-- Embedding of the contribution the render kernel adds to pixel c for one
firefly.  d is the length of p - ff_pos where p = (c.x / res_x, c.y /
res_y), so sdf_circle(p, ff_pos, r) = d - r; the kernel adds
mix_colors(ff_color, white, pf * 0.7) * (1 - smoothstep(0, r * 0.5, d - r))
* 0.5 exactly when the pixel is inside the bounding box, on screen, and
d - r < r holds; otherwise nothing. -/
def splatContrib (ff : Firefly) (pf d : ℚ) (c : ℤ × ℤ) : ℚ × ℚ × ℚ :=
  if inBoundingBox ff c ∧ inScreen c ∧
      d - currentRadius pf < currentRadius pf then
    v3scale ((1 - smoothstep 0 (currentRadius pf * (1 / 2)) (d - currentRadius pf)) * (1 / 2))
      (mix_colors ff.color (1, 1, 1) (pf * (7 / 10)))
  else (0, 0, 0)

/-- Per-pixel view of the render kernel of taskB_Gubanova.py: the first
loop multiplies the pixel by TRAIL_FADE_SPEED, then the splat loop adds
the contribution of each firefly in order.  Each list entry carries a
firefly together with its pulse factor and its distance to this pixel. -/
def renderPixel (old : ℚ × ℚ × ℚ) (ffs : List (Firefly × ℚ × ℚ)) (c : ℤ × ℤ) : ℚ × ℚ × ℚ :=
  ffs.foldl (fun acc e => v3add acc (splatContrib e.1 e.2.1 e.2.2 c))
    (v3scale TRAIL_FADE_SPEED old)

theorem v3add_zero (a : ℚ × ℚ × ℚ) : v3add a (0, 0, 0) = a := by
  obtain ⟨a1, a2, a3⟩ := a
  unfold v3add
  simp

/-- Claim C4: a buffer pixel that receives no splat contribution in a frame
(for every firefly the render guard fails at this pixel) ends the frame
exactly equal to its previous value multiplied by the decay factor
TRAIL_FADE_SPEED, because the decay loop runs before the splat loop. -/
theorem C4_decay_only (old : ℚ × ℚ × ℚ) (ffs : List (Firefly × ℚ × ℚ)) (c : ℤ × ℤ)
    (hdist : ∀ e ∈ ffs, 0 ≤ e.2.2 ∧
      e.2.2 ^ 2 = ((c.1 : ℚ) / resX - e.1.pos.1) ^ 2 + ((c.2 : ℚ) / resY - e.1.pos.2) ^ 2)
    (hno : ∀ e ∈ ffs, ¬ (inBoundingBox e.1 c ∧ inScreen c ∧
      e.2.2 - currentRadius e.2.1 < currentRadius e.2.1)) :
    renderPixel old ffs c = v3scale TRAIL_FADE_SPEED old := by
  unfold renderPixel
  have key : ∀ (l : List (Firefly × ℚ × ℚ)) (acc : ℚ × ℚ × ℚ),
      (∀ e ∈ l, ¬ (inBoundingBox e.1 c ∧ inScreen c ∧
        e.2.2 - currentRadius e.2.1 < currentRadius e.2.1)) →
      l.foldl (fun acc e => v3add acc (splatContrib e.1 e.2.1 e.2.2 c)) acc = acc := by
    intro l
    induction l with
    | nil => intro acc _; rfl
    | cons x xs ih =>
      intro acc hl
      have hx := hl x (List.mem_cons_self x xs)
      have hzero : splatContrib x.1 x.2.1 x.2.2 c = (0, 0, 0) := by
        unfold splatContrib
        rw [if_neg hx]
      rw [List.foldl_cons, hzero, v3add_zero]
      exact ih acc fun e he => hl e (List.mem_cons_of_mem x he)
  exact key ffs _ hno

/-- Claim C4 witness: a single firefly at the origin and the pixel
(1000, 0), at distance 25/32 from the firefly center, far outside any
splat influence; the pixel value is exactly the decayed previous value. -/
theorem C4_witness :
    ¬ (inBoundingBox ⟨(0, 0), (1, 0, 0)⟩ (1000, 0) ∧ inScreen (1000, 0) ∧
      (25 / 32 : ℚ) - currentRadius (1 / 2) < currentRadius (1 / 2)) ∧
    renderPixel (1, 1, 1) [(⟨(0, 0), (1, 0, 0)⟩, 1 / 2, 25 / 32)] (1000, 0) =
      v3scale TRAIL_FADE_SPEED (1, 1, 1) :=
  ⟨by
    norm_num [inBoundingBox, inScreen, pixelX, pixelY, ratTrunc,
      MAX_FIREFLY_PIXEL_RADIUS, resX, resY, FIREFLY_RADIUS, MAX_PULSE_FACTOR],
   C4_decay_only (1, 1, 1) [(⟨(0, 0), (1, 0, 0)⟩, 1 / 2, 25 / 32)] (1000, 0)
     (by
       intro e he
       simp only [List.mem_singleton] at he
       subst he
       constructor
       · norm_num
       · norm_num [resX, resY])
     (by
       intro e he
       simp only [List.mem_singleton] at he
       subst he
       norm_num [inBoundingBox, inScreen, pixelX, pixelY, ratTrunc,
         MAX_FIREFLY_PIXEL_RADIUS, resX, resY, FIREFLY_RADIUS, MAX_PULSE_FACTOR])⟩

/-- Claim C6 (amended): a pulse-brightened color is blended into the buffer
for a pixel inside the bounding box and on screen if and only if the
euclidean distance from the pixel point to the particle center is less than
TWICE the current pulsing radius (the source compares the signed distance
d - r, which already subtracts the radius, against the radius), and the
value added is mix_colors(color, white, pf * 0.7) scaled by the smooth
falloff (1 - smoothstep(0, r * 0.5, d - r)) * 0.5. -/
theorem C6_blend_condition (ff : Firefly) (pf d : ℚ) (c : ℤ × ℤ) (h0 : 0 ≤ d)
    (hd : d ^ 2 = ((c.1 : ℚ) / resX - ff.pos.1) ^ 2 + ((c.2 : ℚ) / resY - ff.pos.2) ^ 2) :
    (splatContrib ff pf d c ≠ (0, 0, 0) →
      inBoundingBox ff c ∧ inScreen c ∧ d < 2 * currentRadius pf) ∧
    (inBoundingBox ff c → inScreen c → d < 2 * currentRadius pf →
      splatContrib ff pf d c =
        v3scale ((1 - smoothstep 0 (currentRadius pf * (1 / 2)) (d - currentRadius pf)) * (1 / 2))
          (mix_colors ff.color (1, 1, 1) (pf * (7 / 10)))) := by
  constructor
  · intro hne
    by_cases hg : inBoundingBox ff c ∧ inScreen c ∧
        d - currentRadius pf < currentRadius pf
    · exact ⟨hg.1, hg.2.1, by linarith [hg.2.2]⟩
    · exfalso
      apply hne
      unfold splatContrib
      rw [if_neg hg]
  · intro hb hs hlt
    unfold splatContrib
    rw [if_pos ⟨hb, hs, by linarith⟩]

/-- Claim C6 counterexample: firefly at the origin with color (1, 0, 0),
pulse factor 1/2 (current radius 1/125 = 0.008), pixel (15, 0) at distance
3/256 = 0.01171875 from the center.  The distance is NOT below the current
pulsing radius, yet the kernel blends a nonzero contribution, because the
source condition is d - r < r, that is d < 2r. -/
theorem C6_counterexample :
    (0 ≤ (3 / 256 : ℚ) ∧
      ((3 / 256 : ℚ)) ^ 2 = (((15 : ℤ) : ℚ) / resX - 0) ^ 2 + (((0 : ℤ) : ℚ) / resY - 0) ^ 2) ∧
    inBoundingBox ⟨(0, 0), (1, 0, 0)⟩ (15, 0) ∧ inScreen (15, 0) ∧
    ¬ ((3 / 256 : ℚ) < currentRadius (1 / 2)) ∧
    splatContrib ⟨(0, 0), (1, 0, 0)⟩ (1 / 2) (3 / 256) (15, 0) ≠ (0, 0, 0) := by
  refine ⟨⟨by norm_num, by norm_num [resX, resY]⟩, ?_, ?_, ?_, ?_⟩
  · norm_num [inBoundingBox, pixelX, pixelY, ratTrunc, MAX_FIREFLY_PIXEL_RADIUS,
      resX, resY, FIREFLY_RADIUS, MAX_PULSE_FACTOR]
  · norm_num [inScreen]
  · norm_num [currentRadius, mixScalar, FIREFLY_RADIUS, MIN_PULSE_FACTOR, MAX_PULSE_FACTOR]
  · norm_num [splatContrib, inBoundingBox, inScreen, pixelX, pixelY, ratTrunc,
      MAX_FIREFLY_PIXEL_RADIUS, resX, resY, currentRadius, mixScalar, smoothstep,
      clampQ, qmin, qmax, mix_colors, v3add, v3scale, FIREFLY_RADIUS,
      MIN_PULSE_FACTOR, MAX_PULSE_FACTOR, Prod.ext_iff]

/-- Claim C6 witness: the amended blend condition applied at the same
concrete firefly and pixel as the counterexample. -/
theorem C6_witness :
    (0 ≤ (3 / 256 : ℚ) ∧
      ((3 / 256 : ℚ)) ^ 2 = (((15 : ℤ) : ℚ) / resX - 0) ^ 2 + (((0 : ℤ) : ℚ) / resY - 0) ^ 2 ∧
      (3 / 256 : ℚ) < 2 * currentRadius (1 / 2)) ∧
    splatContrib ⟨(0, 0), (1, 0, 0)⟩ (1 / 2) (3 / 256) (15, 0) =
      v3scale ((1 - smoothstep 0 (currentRadius (1 / 2) * (1 / 2))
          ((3 / 256) - currentRadius (1 / 2))) * (1 / 2))
        (mix_colors (1, 0, 0) (1, 1, 1) ((1 / 2) * (7 / 10))) :=
  ⟨⟨by norm_num, by norm_num [resX, resY],
    by norm_num [currentRadius, mixScalar, FIREFLY_RADIUS, MIN_PULSE_FACTOR, MAX_PULSE_FACTOR]⟩,
   (C6_blend_condition ⟨(0, 0), (1, 0, 0)⟩ (1 / 2) (3 / 256) (15, 0)
      (by norm_num) (by norm_num [resX, resY])).2
     (by norm_num [inBoundingBox, pixelX, pixelY, ratTrunc, MAX_FIREFLY_PIXEL_RADIUS,
        resX, resY, FIREFLY_RADIUS, MAX_PULSE_FACTOR])
     (by norm_num [inScreen])
     (by norm_num [currentRadius, mixScalar, FIREFLY_RADIUS, MIN_PULSE_FACTOR,
        MAX_PULSE_FACTOR])⟩

/-- Embedding of the coordinate snapping fragCoord // 16 * 16 of
TwoPassShader.render_pass2 (natural-number division is floor division). -/
def snap16 (n : ℕ) : ℕ := n / 16 * 16

/-- Embedding of TwoPassShader.render_pass2: every pixel of the w x h
grid is overwritten with the buffer value at the snapped coordinate;
entries outside the grid are not touched by the kernel. -/
def renderPass2 (w h : ℕ) (buffer px : ℕ × ℕ → ℚ × ℚ × ℚ) : ℕ × ℕ → ℚ × ℚ × ℚ :=
  fun c => if c.1 < w ∧ c.2 < h then buffer (snap16 c.1, snap16 c.2) else px c

/-- Claim C7: the resolve pass assigns to every in-grid pixel the
intermediate-buffer value at floor(coordinate / 16) * 16 (a formula that
does not involve the viewing resolution w x h), and applying the pass
twice with an unchanged intermediate buffer equals applying it once. -/
theorem C7_resolve_idempotent (w h : ℕ) (buffer px : ℕ × ℕ → ℚ × ℚ × ℚ) :
    (∀ c : ℕ × ℕ, c.1 < w → c.2 < h →
      renderPass2 w h buffer px c = buffer (c.1 / 16 * 16, c.2 / 16 * 16)) ∧
    renderPass2 w h buffer (renderPass2 w h buffer px) = renderPass2 w h buffer px := by
  constructor
  · intro c h1 h2
    unfold renderPass2
    rw [if_pos ⟨h1, h2⟩]
    rfl
  · funext c
    by_cases hc : c.1 < w ∧ c.2 < h
    · simp only [renderPass2, if_pos hc]
    · simp only [renderPass2, if_neg hc]

/-- Constant intermediate buffer used by the C7 witness. -/
def constBuf : ℕ × ℕ → ℚ × ℚ × ℚ := fun c => ((c.1 : ℚ), (c.2 : ℚ), 0)

/-- Constant previous pixel buffer used by the C7 witness. -/
def constPx : ℕ × ℕ → ℚ × ℚ × ℚ := fun _ => (5, 5, 5)

/-- Claim C7 witness: the resolve pass on a 20 x 20 grid at pixel (3, 4)
reads the buffer at (0, 0), and resolving twice equals resolving once. -/
theorem C7_witness :
    ((3 : ℕ) < 20 ∧ (4 : ℕ) < 20) ∧
    renderPass2 20 20 constBuf constPx (3, 4) = constBuf (3 / 16 * 16, 4 / 16 * 16) ∧
    renderPass2 20 20 constBuf (renderPass2 20 20 constBuf constPx) =
      renderPass2 20 20 constBuf constPx :=
  ⟨⟨by norm_num, by norm_num⟩,
   (C7_resolve_idempotent 20 20 constBuf constPx).1 (3, 4) (by norm_num) (by norm_num),
   (C7_resolve_idempotent 20 20 constBuf constPx).2⟩

/-- Embedding of the per-pixel coordinate normalization of
BaseShader.render and TwoPassShader.render_pass1:
uv = (fragCoord - 0.5 * resf) / resf.y, with resf = (w, h). -/
def uvOf (w h cx cy : ℚ) : ℚ × ℚ :=
  ((cx - (1 / 2) * w) / h, (cy - (1 / 2) * h) / h)

/-- Modelled from the words of claim C8: the pixel coordinate minus half
the resolution divided by min(width, height), so that the shorter screen
axis spans length 1. -/
def uvClaim (w h cx cy : ℚ) : ℚ × ℚ :=
  ((cx - (1 / 2) * w) / qmin w h, (cy - (1 / 2) * h) / qmin w h)

theorem qmin_right {w h : ℚ} (hw : h ≤ w) : qmin w h = h := by
  unfold qmin
  split_ifs with hc
  · exact le_antisymm hc hw
  · rfl

/-- Claim C8 (amended): the source divides by the vertical resolution
resf.y, so the VERTICAL axis always spans length 1 centered at the
origin; this coincides with dividing by min(width, height) exactly when
height ≤ width. -/
theorem C8_normalized_by_height (w h cx cy : ℚ) (hh : 0 < h) (hw : h ≤ w) :
    uvOf w h cx cy = uvClaim w h cx cy := by
  unfold uvOf uvClaim
  rw [qmin_right hw]

/-- Claim C8 counterexample: at resolution (100, 200) (height greater than
width) and pixel (0, 0), the source normalization divides by the height
200 giving (-1/4, -1/2), while the claim normalization divides by
min = 100 giving (-1/2, -1). -/
theorem C8_counterexample : uvOf 100 200 0 0 ≠ uvClaim 100 200 0 0 := by
  norm_num [uvOf, uvClaim, qmin, Prod.ext_iff]

/-- Claim C8 witness: at resolution (200, 100), where the height is the
shorter axis, the two normalizations agree. -/
theorem C8_witness :
    ((0 : ℚ) < 100 ∧ (100 : ℚ) ≤ 200) ∧ uvOf 200 100 0 0 = uvClaim 200 100 0 0 :=
  ⟨⟨by norm_num, by norm_num⟩, C8_normalized_by_height 200 100 0 0 (by norm_num) (by norm_num)⟩

/-- Embedding of the default resolution (1000, 563) of BaseShader. -/
def defaultRes : ℤ × ℤ := (1000, 563)

/-- State stored by BaseShader.__init__: the resolution used for the
pixels field and the gamma value.  The constructor performs no
validation. -/
structure BaseShaderState where
  res : ℤ × ℤ
  gamma : ℚ
deriving DecidableEq

/-- Embedding of BaseShader.__init__: self.res = res if res is not None
else (1000, 563); self.gamma = gamma; no check rejects any input. -/
def mkBaseShader (r : Option (ℤ × ℤ)) (g : ℚ) : BaseShaderState :=
  ⟨r.getD defaultRes, g⟩

/-- Embedding of the render-time guard of BaseShader.render: the gamma
branch col ** (1 / gamma) runs only when self.gamma > 0. -/
def gammaBranchTaken (g : ℚ) : Bool := decide (0 < g)

/-- Modelled from the words of claim C9: a constructor that rejects a
non-positive resolution component or a gamma of zero at startup. -/
def mkBaseShaderClaim (r : Option (ℤ × ℤ)) (g : ℚ) : Option BaseShaderState :=
  if (r.getD defaultRes).1 ≤ 0 ∨ (r.getD defaultRes).2 ≤ 0 ∨ g = 0 then none
  else some ⟨r.getD defaultRes, g⟩

/-- Claim C9 (amended): BaseShader.__init__ performs no validation at all:
any resolution and any gamma are stored unchanged and construction always
succeeds; a gamma value that is not positive never produces the division
1 / gamma because the render kernel guards the gamma correction with
gamma > 0.  In particular an invalid configuration is not rejected at
startup by this code. -/
theorem C9_no_validation (r : Option (ℤ × ℤ)) (g : ℚ) :
    (mkBaseShader r g).res = r.getD defaultRes ∧ (mkBaseShader r g).gamma = g ∧
    (g ≤ 0 → gammaBranchTaken g = false) := by
  refine ⟨rfl, rfl, ?_⟩
  intro h
  unfold gammaBranchTaken
  exact decide_eq_false (not_lt.mpr h)

/-- Claim C9 counterexample: gamma = 0 with an ordinary resolution.  The
claimed behaviour rejects the configuration at startup, but the source
constructor succeeds and stores gamma = 0 (the gamma correction is merely
skipped later at render time). -/
theorem C9_counterexample :
    mkBaseShaderClaim (some (800, 600)) 0 = none ∧
    mkBaseShader (some (800, 600)) 0 = ⟨(800, 600), 0⟩ := by
  constructor
  · norm_num [mkBaseShaderClaim]
  · rfl

/-- Claim C9 witness: the amended statement applied at resolution
(800, 600) and gamma 0. -/
theorem C9_witness :
    ((0 : ℚ) ≤ 0) ∧ (mkBaseShader (some (800, 600)) 0).gamma = 0 ∧
    gammaBranchTaken 0 = false :=
  ⟨le_refl 0, (C9_no_validation (some (800, 600)) 0).2.1,
   (C9_no_validation (some (800, 600)) 0).2.2 (le_refl 0)⟩

/-- State created by TwoPassShader.__init__: super().__init__ gives the
pixels field the shape self.res = res if res is not None else (1000, 563),
while self.buffer = ti.Vector.field(3, dtype, shape=res) receives the RAW
res argument: with res = None the buffer field is created without a shape
(none), not with the default resolution. -/
structure TwoPassState where
  pixelsShape : ℤ × ℤ
  bufferShape : Option (ℤ × ℤ)
deriving DecidableEq

/-- Embedding of TwoPassShader.__init__. -/
def mkTwoPassShader (r : Option (ℤ × ℤ)) : TwoPassState :=
  ⟨r.getD defaultRes, r⟩

/-- Claim C10 (code bug): with res = None the pixels field gets the
default resolution (1000, 563) but the intermediate buffer is created
with shape None, because the constructor passes the raw res argument
instead of self.res; the two shapes differ, contradicting the claim. -/
theorem C10_buffer_shape_bug :
    (mkTwoPassShader none).pixelsShape = (1000, 563) ∧
    (mkTwoPassShader none).bufferShape = none ∧
    ¬ (mkTwoPassShader none).bufferShape = some (mkTwoPassShader none).pixelsShape := by
  refine ⟨rfl, rfl, ?_⟩
  intro h
  exact Option.noConfusion h
